import Mathlib

/-!
Shallow embedding of the move validation and attempt-recording pipeline of
the chess trainer (src/training.py, src/jsonl_loader.py, src/database.py and
the unanalyzed-move branch of src/app.py).

The SQLite database is modelled as a record of row lists; `fetchone` on a
query without ORDER BY is modelled by `List.find?` (first matching row in
rowid order), aggregates by explicit folds.  INTEGER columns are `Int`
(ids, which SQLite assigns positively, are `Nat`), TEXT columns are
`String`.  JSON-typed columns are carried as their raw text: the claims
never look inside them.  A query executed on a closed connection raises
`sqlite3.ProgrammingError`; functions that can reach such a state return
`Except String _`.
-/

/-- Row of the `positions` table (database.py, init_db). -/
structure PositionRow where
  id : Nat
  fen : String
  turn : String
  fullmove_number : Int
  timestamp : Option String := none
  position_classification : String := "[]"
  metadata : String := "\x7b\x7d"
  deriving Repr, DecidableEq

/-- Row of the `moves` table (database.py, init_db). -/
structure MoveRow where
  id : Nat
  position_id : Nat
  move : String
  uci : String := ""
  score : Int
  depth : Int := 0
  centipawn_loss : Int := 0
  classification : String := ""
  principal_variation : String := ""
  tactics : String := "[]"
  position_impact : String := "\x7b\x7d"
  rank : Int
  deriving Repr, DecidableEq

/-- Row of the `user_moves` table (database.py, init_db).  `time_taken` is a
REAL column; the claims only move it around, so it is carried as `Int`. -/
structure UserMoveRow where
  id : Nat
  user_id : Nat
  position_id : Nat
  move_id : Nat
  time_taken : Int
  result : String
  openai_analysis : Option String := none
  deriving Repr, DecidableEq

/-- Row of the `user_settings` table (database.py, init_db); only the two
threshold columns are read by the code under verification. -/
structure UserSettingsRow where
  user_id : Nat
  top_n_threshold : Int
  score_difference_threshold : Int
  deriving Repr, DecidableEq

/-- The database state.  `next_user_move_id` models the AUTOINCREMENT
counter of `user_moves` (the value `cursor.lastrowid` reports after an
insert). -/
structure DB where
  positions : List PositionRow
  moves : List MoveRow
  user_moves : List UserMoveRow
  user_settings : List UserSettingsRow
  next_user_move_id : Nat
  deriving Repr, DecidableEq

/-- Insert a move row into a rank-sorted list (helper for ORDER BY rank). -/
def insertByRank (m : MoveRow) : List MoveRow → List MoveRow
  | [] => [m]
  | x :: xs => if m.rank < x.rank then m :: x :: xs else x :: insertByRank m xs

/-- Sort move rows by `rank` ascending (models `ORDER BY rank`). -/
def sortByRank : List MoveRow → List MoveRow
  | [] => []
  | x :: xs => insertByRank x (sortByRank xs)

/-- The dict returned by `get_position_by_id` (training.py:22-67): the
position row with its rank-ordered move rows attached.  The JSON fields are
carried unparsed. -/
structure PositionData where
  id : Nat
  fen : String
  turn : String
  fullmove_number : Int
  position_classification : String
  metadata : String
  moves : List MoveRow
  deriving Repr, DecidableEq

/-- training.py:22-67, `get_position_by_id`: look the position up, return
`none` if absent, otherwise attach its moves ordered by rank. -/
def get_position_by_id (db : DB) (position_id : Nat) : Option PositionData :=
  match db.positions.find? (fun p => p.id == position_id) with
  | none => none
  | some p =>
      some { id := p.id, fen := p.fen, turn := p.turn,
             fullmove_number := p.fullmove_number,
             position_classification := p.position_classification,
             metadata := p.metadata,
             moves := sortByRank (db.moves.filter (fun m => m.position_id == position_id)) }

/-- training.py:69-104, `get_sequential_position`.  The code computes
`MAX(position_id)` over the user's attempts (NULL and 0 both coalesce to 0),
then `MIN(id)` of the positions with a strictly greater id, then calls
`conn.close()` (line 94).  If no such position was found it re-uses the
cursor of the now-closed connection (line 98), which raises
`sqlite3.ProgrammingError`; that raise is modelled as `Except.error`. -/
def get_sequential_position (db : DB) (user_id : Nat) :
    Except String (Option PositionData) :=
  let attempted := (db.user_moves.filter (fun r => r.user_id == user_id)).map
    (fun r => r.position_id)
  let last_position_id : Nat := (attempted.max?).getD 0
  let greater := (db.positions.map (fun p => p.id)).filter
    (fun i => last_position_id < i)
  let next_position_id : Option Nat := greater.min?
  -- conn.close() happens here (training.py:94)
  match next_position_id with
  | some nid => Except.ok (get_position_by_id db nid)
  | none =>
      -- training.py:98 executes a query on the closed connection
      Except.error "sqlite3.ProgrammingError: Cannot operate on a closed database."

/-- training.py:115-118: fetch the user's thresholds, falling back to the
defaults (3, 10) when no `user_settings` row exists. -/
def get_thresholds (db : DB) (user_id : Nat) : Int × Int :=
  match db.user_settings.find? (fun s => s.user_id == user_id) with
  | some s => (s.top_n_threshold, s.score_difference_threshold)
  | none => (3, 10)

/-- The dict returned by `validate_move` when the move and the rank-1 move
were both found (training.py:151-161). -/
structure ValidationOutcome where
  success : Bool
  move_id : Nat
  rank : Int
  score : Int
  classification : String
  centipawn_loss : Int
  score_difference : Int
  result : String
  message : String
  deriving Repr, DecidableEq

/-- The two shapes of dict `validate_move` returns: the not-found dict of
training.py:138 (success flag and message only) or the full outcome. -/
inductive ValidationResult where
  | notFound (success : Bool) (message : String)
  | ok (o : ValidationOutcome)
  deriving Repr, DecidableEq

/-- training.py:106-161, `validate_move`.  The connection only executes
SELECT statements, so the database component of the return value is the
input state. -/
def validate_move (db : DB) (position_id : Nat) (selected_move : String)
    (user_id : Nat) : ValidationResult × DB :=
  let thresholds := get_thresholds db user_id
  let top_n_threshold := thresholds.1
  let score_difference_threshold := thresholds.2
  let selected_move_data := db.moves.find?
    (fun m => m.position_id == position_id && m.move == selected_move)
  let top_move := db.moves.find?
    (fun m => m.position_id == position_id && m.rank == 1)
  match selected_move_data, top_move with
  | some smd, some tm =>
      let score_difference := |smd.score - tm.score|
      let is_success := decide (smd.rank ≤ top_n_threshold) &&
        decide (score_difference ≤ score_difference_threshold)
      let result := if is_success then "pass" else "fail"
      let message := "Move ranked #" ++ toString smd.rank ++
        (if decide (smd.rank ≤ top_n_threshold) && !is_success then
          ", but score difference too high: " ++ toString score_difference
         else "")
      (ValidationResult.ok
        { success := is_success, move_id := smd.id, rank := smd.rank,
          score := smd.score, classification := smd.classification,
          centipawn_loss := smd.centipawn_loss,
          score_difference := score_difference, result := result,
          message := message }, db)
  | _, _ => (ValidationResult.notFound false "Move not found or position invalid", db)

/-- training.py:163-180, `record_user_move`: INSERT one `user_moves` row
and return `cursor.lastrowid`. -/
def record_user_move (db : DB) (user_id position_id move_id : Nat)
    (time_taken : Int) (result : String) : Nat × DB :=
  let move_record_id := db.next_user_move_id
  (move_record_id,
   { db with
      user_moves := db.user_moves ++
        [{ id := move_record_id, user_id := user_id, position_id := position_id,
           move_id := move_id, time_taken := time_taken, result := result,
           openai_analysis := none }],
      next_user_move_id := move_record_id + 1 })

/-- training.py:182-198, `save_openai_analysis`: UPDATE the
`openai_analysis` column of the row whose id matches, return True. -/
def save_openai_analysis (db : DB) (move_record_id : Nat)
    (analysis_text : String) : Bool × DB :=
  (true,
   { db with
      user_moves := db.user_moves.map (fun r =>
        if r.id == move_record_id then { r with openai_analysis := some analysis_text }
        else r) })

/-- jsonl_loader.py:151-185, `clear_positions`: refuse when any `user_moves`
row exists, otherwise DELETE every `moves` and `positions` row. -/
def clear_positions (db : DB) : (Bool × String) × DB :=
  let user_moves_count := db.user_moves.length
  if user_moves_count > 0 then
    ((false, "Cannot clear positions: " ++ toString user_moves_count ++
      " user moves would be lost. Export user data first."), db)
  else
    ((true, "All positions and moves cleared successfully."),
     { db with moves := [], positions := [] })

/-- Python truthiness of an optional integer (`if not move_id:` treats both
`None` and `0` as falsy). -/
def optionTruthy : Option Nat → Bool
  | some n => n != 0
  | none => false

/-- app.py:303-333, the unanalyzed-legal-move branch of `training_page`:
take the last element of the rank-ascending move list, resolve its id
(falling back to a LIMIT 1 lookup by notation when the dict's id is falsy),
and record a `fail` attempt against it when an id was resolved; otherwise
record nothing. -/
def handle_unanalyzed_move (db : DB) (pos : PositionData) (user_id : Nat)
    (elapsed_time : Int) : DB :=
  match pos.moves.getLast? with
  | none => db
  | some lowest_move =>
      let move_id0 : Option Nat := some lowest_move.id
      let move_id : Option Nat :=
        if optionTruthy move_id0 then move_id0
        else (db.moves.find?
          (fun m => m.position_id == pos.id && m.move == lowest_move.move)).map
          (fun m => m.id)
      if optionTruthy move_id then
        (record_user_move db user_id pos.id (move_id.getD 0) elapsed_time "fail").2
      else db

/-! Concrete database states, following the scenario of the specification:
position 1 with candidates e4 (rank 1, score 30), d4 (rank 2, score 25),
Nf3 (rank 3, score 10); user 7 with thresholds (2, 10), user 8 with
thresholds (3, 15), user 5 with no settings row. -/

def demoE4 : MoveRow :=
  { id := 1, position_id := 1, move := "e4", score := 30,
    classification := "great", rank := 1 }

def demoD4 : MoveRow :=
  { id := 2, position_id := 1, move := "d4", score := 25,
    centipawn_loss := 5, classification := "good", rank := 2 }

def demoNf3 : MoveRow :=
  { id := 3, position_id := 1, move := "Nf3", score := 10,
    centipawn_loss := 20, classification := "inaccuracy", rank := 3 }

def demoPositionRow : PositionRow :=
  { id := 1, fen := "rnbqkbnr/pppppppp/8/8/8/8/PPPPPPPP/RNBQKBNR w KQkq - 0 1",
    turn := "white", fullmove_number := 1 }

def demoDB : DB :=
  { positions := [demoPositionRow],
    moves := [demoE4, demoD4, demoNf3],
    user_moves := [],
    user_settings :=
      [{ user_id := 7, top_n_threshold := 2, score_difference_threshold := 10 },
       { user_id := 8, top_n_threshold := 3, score_difference_threshold := 15 }],
    next_user_move_id := 1 }

/-- The dict `get_position_by_id demoDB 1` yields: position 1 with its
rank-ascending move list. -/
def demoPositionData : PositionData :=
  { id := 1, fen := "rnbqkbnr/pppppppp/8/8/8/8/PPPPPPPP/RNBQKBNR w KQkq - 0 1",
    turn := "white", fullmove_number := 1,
    position_classification := "[]", metadata := "\x7b\x7d",
    moves := [demoE4, demoD4, demoNf3] }

/-- A state where user 1 has already attempted position 1 and the catalog
holds only position 1: the sequential selector must wrap around. -/
def seqDB : DB :=
  { positions := [demoPositionRow],
    moves := [demoE4, demoD4, demoNf3],
    user_moves :=
      [{ id := 1, user_id := 1, position_id := 1, move_id := 1,
         time_taken := 10, result := "pass" }],
    user_settings := [],
    next_user_move_id := 2 }

/-- Updating `openai_analysis` twice on the same id keeps only the second
text (helper for the attach-analysis idempotence proof). -/
theorem map_update_analysis_twice (l : List UserMoveRow) (i : Nat) (t1 t2 : String) :
    (l.map (fun r =>
        if r.id == i then { r with openai_analysis := some t1 } else r)).map
      (fun r => if r.id == i then { r with openai_analysis := some t2 } else r) =
    l.map (fun r => if r.id == i then { r with openai_analysis := some t2 } else r) := by
  induction l with
  | nil => rfl
  | cons a l ih =>
    by_cases h : a.id = i <;> simp [h] <;> simpa using ih

/-- Updating `openai_analysis` on one id leaves every row with another id
untouched (helper for the frame part of the attach-analysis proof). -/
theorem filter_map_update_analysis (l : List UserMoveRow) (i : Nat) (t : String) :
    (l.map (fun r =>
        if r.id == i then { r with openai_analysis := some t } else r)).filter
      (fun row => row.id != i) =
    l.filter (fun row => row.id != i) := by
  induction l with
  | nil => rfl
  | cons a l ih =>
    by_cases h : a.id = i <;> simp [h] <;> simpa using ih

/-- C1: for every position, submitted move found among its candidates, and
thresholds, `validate_move` succeeds if and only if the move's rank is at
most `top_n_threshold` and the absolute score difference to the rank-1 move
is at most `score_difference_threshold`; the `result` field is `"pass"`
exactly when `success` is true. -/
theorem validate_move_success_iff (db : DB) (pid : Nat) (mv : String) (uid : Nat)
    (smd tm : MoveRow)
    (hs : db.moves.find? (fun m => m.position_id == pid && m.move == mv) = some smd)
    (ht : db.moves.find? (fun m => m.position_id == pid && m.rank == 1) = some tm) :
    ∃ o : ValidationOutcome, (validate_move db pid mv uid).1 = ValidationResult.ok o ∧
      (o.success = true ↔
        smd.rank ≤ (get_thresholds db uid).1 ∧
        |smd.score - tm.score| ≤ (get_thresholds db uid).2) ∧
      (o.result = "pass" ↔ o.success = true) := by
  simp only [validate_move, hs, ht]
  refine ⟨_, rfl, ?_, ?_⟩
  · simp
  · by_cases h1 : smd.rank ≤ (get_thresholds db uid).1 <;>
    by_cases h2 : |smd.score - tm.score| ≤ (get_thresholds db uid).2 <;>
    simp [h1, h2]

/-- C1 witness: move d4 for user 7 (thresholds (2, 10)): rank 2 ≤ 2 and
score gap 5 ≤ 10. -/
theorem validate_move_success_iff_witness :
    (demoDB.moves.find? (fun m => m.position_id == 1 && m.move == "d4") = some demoD4) ∧
    (demoDB.moves.find? (fun m => m.position_id == 1 && m.rank == 1) = some demoE4) ∧
    (∃ o : ValidationOutcome,
      (validate_move demoDB 1 "d4" 7).1 = ValidationResult.ok o ∧
      (o.success = true ↔
        demoD4.rank ≤ (get_thresholds demoDB 7).1 ∧
        |demoD4.score - demoE4.score| ≤ (get_thresholds demoDB 7).2) ∧
      (o.result = "pass" ↔ o.success = true)) :=
  ⟨rfl, rfl, validate_move_success_iff demoDB 1 "d4" 7 demoD4 demoE4 rfl rfl⟩

/-- C10: `validate_move` is read-only: it returns the database state it was
given, so the positions, moves, user_moves and user_settings tables are all
unchanged and validation alone never records an attempt. -/
theorem validate_move_read_only (db : DB) (pid : Nat) (mv : String) (uid : Nat) :
    (validate_move db pid mv uid).2 = db ∧
    (validate_move db pid mv uid).2.positions = db.positions ∧
    (validate_move db pid mv uid).2.moves = db.moves ∧
    (validate_move db pid mv uid).2.user_moves = db.user_moves ∧
    (validate_move db pid mv uid).2.user_settings = db.user_settings := by
  have h : (validate_move db pid mv uid).2 = db := by
    simp only [validate_move]
    split <;> rfl
  exact ⟨h, by rw [h], by rw [h], by rw [h], by rw [h]⟩

/-- C5: `clear_positions` succeeds exactly when the user_moves table is
empty; on failure the state (in particular the positions and moves tables)
is exactly as before, and only on success are positions and moves
deleted. -/
theorem clear_positions_spec (db : DB) :
    ((clear_positions db).1.1 = db.user_moves.isEmpty) ∧
    ((clear_positions db).2 =
      if db.user_moves.isEmpty then { db with moves := [], positions := [] }
      else db) := by
  unfold clear_positions
  cases db.user_moves with
  | nil => simp
  | cons a l => simp

/-- C3: for a position whose candidate ranks are unique positive integers
including rank 1 (with notations unique per position, the schema's
UNIQUE(position_id, move)), and thresholds satisfying the data-model
constraints (`top_n_threshold ≥ 1`, `score_difference_threshold ≥ 0`),
validating the rank-1 candidate's notation yields `success = true` and
`score_difference = 0`. -/
theorem validate_move_rank_one_passes (db : DB) (pid : Nat) (uid : Nat)
    (m1 : MoveRow)
    (hm : m1 ∈ db.moves) (hpid : m1.position_id = pid) (hr : m1.rank = 1)
    (hmv : ∀ m ∈ db.moves, m.position_id = pid → m.move = m1.move → m = m1)
    (hrk : ∀ m ∈ db.moves, m.position_id = pid → m.rank = 1 → m = m1)
    (htop : 1 ≤ (get_thresholds db uid).1)
    (hsd : 0 ≤ (get_thresholds db uid).2) :
    ∃ o : ValidationOutcome,
      (validate_move db pid m1.move uid).1 = ValidationResult.ok o ∧
      o.success = true ∧ o.score_difference = 0 := by
  have hsel : db.moves.find?
      (fun m => m.position_id == pid && m.move == m1.move) = some m1 := by
    have h1 : (db.moves.find?
        (fun m => m.position_id == pid && m.move == m1.move)).isSome :=
      List.find?_isSome.mpr ⟨m1, hm, by simp [hpid]⟩
    obtain ⟨m, hmf⟩ := Option.isSome_iff_exists.mp h1
    have hpm := List.find?_some hmf
    have hmem := List.mem_of_find?_eq_some hmf
    simp only [Bool.and_eq_true, beq_iff_eq] at hpm
    rw [hmf, hmv m hmem hpm.1 hpm.2]
  have htm : db.moves.find?
      (fun m => m.position_id == pid && m.rank == 1) = some m1 := by
    have h1 : (db.moves.find?
        (fun m => m.position_id == pid && m.rank == 1)).isSome :=
      List.find?_isSome.mpr ⟨m1, hm, by simp [hpid, hr]⟩
    obtain ⟨m, hmf⟩ := Option.isSome_iff_exists.mp h1
    have hpm := List.find?_some hmf
    have hmem := List.mem_of_find?_eq_some hmf
    simp only [Bool.and_eq_true, beq_iff_eq] at hpm
    rw [hmf, hrk m hmem hpm.1 hpm.2]
  simp only [validate_move, hsel, htm]
  refine ⟨_, rfl, ?_, ?_⟩
  · simp [hr, htop, hsd]
  · simp

/-- C3 witness: the rank-1 move e4 for user 7 (thresholds (2, 10)). -/
theorem validate_move_rank_one_passes_witness :
    demoE4 ∈ demoDB.moves ∧ demoE4.position_id = 1 ∧ demoE4.rank = 1 ∧
    (∀ m ∈ demoDB.moves, m.position_id = 1 → m.move = demoE4.move → m = demoE4) ∧
    (∀ m ∈ demoDB.moves, m.position_id = 1 → m.rank = 1 → m = demoE4) ∧
    1 ≤ (get_thresholds demoDB 7).1 ∧ 0 ≤ (get_thresholds demoDB 7).2 ∧
    (∃ o : ValidationOutcome,
      (validate_move demoDB 1 demoE4.move 7).1 = ValidationResult.ok o ∧
      o.success = true ∧ o.score_difference = 0) :=
  ⟨by decide, by decide, by decide, by decide, by decide, by decide, by decide,
   validate_move_rank_one_passes demoDB 1 7 demoE4 (by decide) (by decide)
     (by decide) (by decide) (by decide) (by decide) (by decide)⟩

/-- C4: when the position has no candidate rows at all (which is the state
of a non-existent position under the schema's foreign keys), or the
submitted move is not among the candidates, or no rank-1 row exists,
`validate_move` returns the not-found failure dict instead of raising. -/
theorem validate_move_not_found_guard (db : DB) (pid : Nat) (mv : String)
    (uid : Nat)
    (h : db.moves.filter (fun m => m.position_id == pid) = [] ∨
         db.moves.find? (fun m => m.position_id == pid && m.move == mv) = none ∨
         db.moves.find? (fun m => m.position_id == pid && m.rank == 1) = none) :
    validate_move db pid mv uid =
      (ValidationResult.notFound false "Move not found or position invalid", db) := by
  have hcase : db.moves.find?
      (fun m => m.position_id == pid && m.move == mv) = none ∨
      db.moves.find? (fun m => m.position_id == pid && m.rank == 1) = none := by
    rcases h with h | h | h
    · left
      rw [List.find?_eq_none]
      intro m hmem hp
      have hm2 : (m.position_id == pid) = true := by
        simp only [Bool.and_eq_true] at hp
        exact hp.1
      have hmf : m ∈ db.moves.filter (fun m => m.position_id == pid) :=
        List.mem_filter.mpr ⟨hmem, hm2⟩
      rw [h] at hmf
      exact absurd hmf (List.not_mem_nil m)
    · exact Or.inl h
    · exact Or.inr h
  rcases hcase with hc | hc
  · cases h2 : db.moves.find? (fun m => m.position_id == pid && m.rank == 1) <;>
      simp [validate_move, hc, h2]
  · cases h2 : db.moves.find? (fun m => m.position_id == pid && m.move == mv) <;>
      simp [validate_move, hc, h2]

/-- C4 witness: position 99 has no candidate rows in the demo state; the
validator reports the not-found dict. -/
theorem validate_move_not_found_guard_witness :
    (demoDB.moves.filter (fun m => m.position_id == 99) = []) ∧
    validate_move demoDB 99 "e4" 7 =
      (ValidationResult.notFound false "Move not found or position invalid",
       demoDB) :=
  ⟨by decide, validate_move_not_found_guard demoDB 99 "e4" 7 (Or.inl (by decide))⟩

/-- C7: for a validated move found among the candidates, the message states
the move's rank, and it carries the extra score-difference sentence exactly
when the rank qualified but the overall result is fail. -/
theorem validate_move_message_spec (db : DB) (pid : Nat) (mv : String)
    (uid : Nat) (smd tm : MoveRow)
    (hs : db.moves.find? (fun m => m.position_id == pid && m.move == mv) = some smd)
    (ht : db.moves.find? (fun m => m.position_id == pid && m.rank == 1) = some tm) :
    ∃ o : ValidationOutcome,
      (validate_move db pid mv uid).1 = ValidationResult.ok o ∧
      (o.rank ≤ (get_thresholds db uid).1 ∧ o.success = false →
        o.message = "Move ranked #" ++ toString o.rank ++
          ", but score difference too high: " ++ toString o.score_difference) ∧
      (¬(o.rank ≤ (get_thresholds db uid).1 ∧ o.success = false) →
        o.message = "Move ranked #" ++ toString o.rank) := by
  simp only [validate_move, hs, ht]
  refine ⟨_, rfl, ?_, ?_⟩
  · by_cases h1 : smd.rank ≤ (get_thresholds db uid).1 <;>
    by_cases h2 : |smd.score - tm.score| ≤ (get_thresholds db uid).2 <;>
    simp [h1, h2, String.append_assoc]
  · by_cases h1 : smd.rank ≤ (get_thresholds db uid).1 <;>
    by_cases h2 : |smd.score - tm.score| ≤ (get_thresholds db uid).2 <;>
    simp [h1, h2, String.append_assoc]

/-- C7 witness: Nf3 for user 8 (thresholds (3, 15)): rank 3 qualifies but
the score gap 20 exceeds 15, so the message carries the extra sentence. -/
theorem validate_move_message_spec_witness :
    (demoDB.moves.find? (fun m => m.position_id == 1 && m.move == "Nf3") =
      some demoNf3) ∧
    (demoDB.moves.find? (fun m => m.position_id == 1 && m.rank == 1) =
      some demoE4) ∧
    (∃ o : ValidationOutcome,
      (validate_move demoDB 1 "Nf3" 8).1 = ValidationResult.ok o ∧
      (o.rank ≤ (get_thresholds demoDB 8).1 ∧ o.success = false →
        o.message = "Move ranked #" ++ toString o.rank ++
          ", but score difference too high: " ++ toString o.score_difference) ∧
      (¬(o.rank ≤ (get_thresholds demoDB 8).1 ∧ o.success = false) →
        o.message = "Move ranked #" ++ toString o.rank)) :=
  ⟨rfl, rfl, validate_move_message_spec demoDB 1 "Nf3" 8 demoNf3 demoE4 rfl rfl⟩

/-- C8: for a user with no `user_settings` row, `validate_move` does not
fail but uses the default thresholds (3, 10): it returns the same dict as
it does for a user whose stored settings are (3, 10). -/
theorem validate_move_default_thresholds (db : DB) (pid : Nat) (mv : String)
    (uid : Nat)
    (h : db.user_settings.find? (fun s => s.user_id == uid) = none) :
    get_thresholds db uid = (3, 10) ∧
    (validate_move db pid mv uid).1 =
      (validate_move
        { db with user_settings :=
            [{ user_id := uid, top_n_threshold := 3,
               score_difference_threshold := 10 }] } pid mv uid).1 := by
  have h1 : get_thresholds db uid = (3, 10) := by
    simp [get_thresholds, h]
  have h2 : get_thresholds
      { db with user_settings :=
          [{ user_id := uid, top_n_threshold := 3,
             score_difference_threshold := 10 }] } uid = (3, 10) := by
    simp [get_thresholds]
  refine ⟨h1, ?_⟩
  simp only [validate_move, h1, h2]
  cases hA : List.find? (fun m => m.position_id == pid && m.move == mv) db.moves <;>
  cases hB : List.find? (fun m => m.position_id == pid && m.rank == 1) db.moves <;>
  simp

/-- C8 witness: user 5 has no settings row in the demo state. -/
theorem validate_move_default_thresholds_witness :
    (demoDB.user_settings.find? (fun s => s.user_id == 5) = none) ∧
    get_thresholds demoDB 5 = (3, 10) ∧
    (validate_move demoDB 1 "e4" 5).1 =
      (validate_move
        { demoDB with user_settings :=
            [{ user_id := 5, top_n_threshold := 3,
               score_difference_threshold := 10 }] } 1 "e4" 5).1 :=
  ⟨by decide,
   (validate_move_default_thresholds demoDB 1 "e4" 5 (by decide)).1,
   (validate_move_default_thresholds demoDB 1 "e4" 5 (by decide)).2⟩

/-- C6: `record_user_move` appends exactly one user_moves row and returns
its newly assigned id, and `save_openai_analysis` is idempotent with
last-write-wins: attaching twice on the same attempt id keeps only the
latest text, never adds a row, and leaves every other attempt untouched. -/
theorem record_attach_spec (db db2 : DB) (u p m : Nat) (t : Int) (r : String)
    (i : Nat) (t1 t2 : String) :
    ((record_user_move db u p m t r).2.user_moves =
      db.user_moves ++
        [{ id := (record_user_move db u p m t r).1, user_id := u,
           position_id := p, move_id := m, time_taken := t, result := r,
           openai_analysis := none }]) ∧
    ((save_openai_analysis (save_openai_analysis db2 i t1).2 i t2).2 =
      (save_openai_analysis db2 i t2).2) ∧
    ((save_openai_analysis db2 i t2).2.user_moves.length =
      db2.user_moves.length) ∧
    ((save_openai_analysis db2 i t2).2.user_moves.filter
        (fun row => row.id != i) =
      db2.user_moves.filter (fun row => row.id != i)) := by
  refine ⟨rfl, ?_, ?_, ?_⟩
  · simp only [save_openai_analysis]
    rw [map_update_analysis_twice]
  · simp [save_openai_analysis]
  · simp only [save_openai_analysis]
    exact filter_map_update_analysis db2.user_moves i t2

/-- C2 (code bug): user 1 has attempted the only position of the catalog,
so the selector must wrap around; the code instead reaches the wrap-around
query only after `conn.close()` and raises `sqlite3.ProgrammingError`
rather than returning the smallest position id. -/
theorem get_sequential_position_wraparound_raises :
    seqDB.positions ≠ [] ∧
    get_sequential_position seqDB 1 =
      Except.error "sqlite3.ProgrammingError: Cannot operate on a closed database." :=
  ⟨by decide, by rfl⟩

/-- C9: the unanalyzed-legal-move branch of the training page records a
`fail` attempt against the last element of the rank-ascending candidate
list when its id resolves (directly or through the fallback LIMIT 1
lookup), and records nothing when the position has no candidates or no id
resolves. -/
theorem handle_unanalyzed_move_spec (db : DB) (pos : PositionData) (u : Nat)
    (e : Int) :
    (pos.moves = [] → handle_unanalyzed_move db pos u e = db) ∧
    (∀ lowest : MoveRow, pos.moves.getLast? = some lowest → lowest.id ≠ 0 →
      (handle_unanalyzed_move db pos u e).user_moves =
        db.user_moves ++
          [{ id := db.next_user_move_id, user_id := u, position_id := pos.id,
             move_id := lowest.id, time_taken := e, result := "fail",
             openai_analysis := none }]) ∧
    (∀ lowest : MoveRow, pos.moves.getLast? = some lowest → lowest.id = 0 →
      db.moves.find?
        (fun m => m.position_id == pos.id && m.move == lowest.move) = none →
      handle_unanalyzed_move db pos u e = db) ∧
    (∀ lowest fb : MoveRow, pos.moves.getLast? = some lowest → lowest.id = 0 →
      db.moves.find?
        (fun m => m.position_id == pos.id && m.move == lowest.move) = some fb →
      fb.id ≠ 0 →
      (handle_unanalyzed_move db pos u e).user_moves =
        db.user_moves ++
          [{ id := db.next_user_move_id, user_id := u, position_id := pos.id,
             move_id := fb.id, time_taken := e, result := "fail",
             openai_analysis := none }]) := by
  refine ⟨?_, ?_, ?_, ?_⟩
  · intro h
    simp [handle_unanalyzed_move, h]
  · intro lowest hl hid
    simp [handle_unanalyzed_move, hl, optionTruthy, hid, record_user_move]
  · intro lowest hl hid hf
    simp [handle_unanalyzed_move, hl, optionTruthy, hid, hf]
  · intro lowest fb hl hid hf hfb
    simp [handle_unanalyzed_move, hl, optionTruthy, hid, hf, hfb,
      record_user_move]

/-- C9 witness: position 1's rank-ascending candidate list ends in Nf3
(id 3), so an unanalyzed legal move is recorded as a fail against Nf3. -/
theorem handle_unanalyzed_move_spec_witness :
    demoPositionData.moves.getLast? = some demoNf3 ∧ demoNf3.id ≠ 0 ∧
    (handle_unanalyzed_move demoDB demoPositionData 7 5).user_moves =
      demoDB.user_moves ++
        [{ id := demoDB.next_user_move_id, user_id := 7,
           position_id := demoPositionData.id, move_id := demoNf3.id,
           time_taken := 5, result := "fail", openai_analysis := none }] :=
  ⟨by decide, by decide,
   (handle_unanalyzed_move_spec demoDB demoPositionData 7 5).2.1 demoNf3
     (by decide) (by decide)⟩
